import Mathlib

/-!
Verification of the ExaCheck health-checker core: a shallow embedding of the
worker state machine, route announcer, check executor, interval sleeper and
configuration-reload reconciliation, with theorems settling the frozen claims.
-/

namespace ExaCheck

/-! ## Python truthiness helpers

Python `if x:` tests on optional values: `None` is falsy, `0` is falsy,
an empty list or string is falsy. -/

/-- Truthiness of an `Optional[int]` counter value (`None` and `0` falsy). -/
def pyTruthyNat : Option Nat → Bool
  | none => false
  | some n => n != 0

/-- Truthiness of an `Optional[int]` value (`None` and `0` falsy). -/
def pyTruthyInt : Option Int → Bool
  | none => false
  | some n => n != 0

/-- Truthiness of an `Optional[list]` value (`None` and `[]` falsy). -/
def pyTruthyList : Option (List String) → Bool
  | none => false
  | some l => !l.isEmpty

/-- Truthiness of an `Optional[str]` value (`None` and the empty string falsy). -/
def pyTruthyStr : Option String → Bool
  | none => false
  | some s => !s.isEmpty

/-! ## Exceptions (src/exacheck/exceptions)

`CheckTimeout` and `DNSResolutionError` both subclass `Exception`; `otherError`
stands for any other `Exception` subclass a probe may raise. -/

/-- Exceptions a probe invocation can raise; every variant models a Python
`Exception` subclass (`CheckTimeout(Exception)`, `DNSResolutionError(Exception)`). -/
inductive PyExc
  | dnsResolutionError (msg : String)
  | checkTimeout (msg : String)
  | otherError (msg : String)
deriving DecidableEq, Repr

/-- `str(exc)`: both exception classes return their stored message. -/
def PyExc.message : PyExc → String
  | PyExc.dnsResolutionError msg => msg
  | PyExc.checkTimeout msg => msg
  | PyExc.otherError msg => msg

/-! ## CheckResult (src/exacheck/checkresult.py) -/

/-- The result of one probe attempt (fields relevant to the claims;
`output` and `date` carry no claim content). -/
structure CheckResult where
  success : Bool
  message : String
  error : Option String := none
  exception : Option PyExc := none
  disabled : Bool := false
deriving DecidableEq, Repr

/-! ## CheckState (src/exacheck/checkstate.py) -/

/-- The `state` literal of `CheckState`. -/
inductive StateTag
  | up
  | down
  | rising
  | falling
  | disabled
  | startup
deriving DecidableEq, Repr

/-- The current state of a health check; timestamps are modelled as `Option Nat`
(`datetime` values supplied by an explicit clock argument). -/
structure CheckState where
  state : StateTag
  advertised : Bool
  last_result : Option CheckResult := none
  down_since : Option Nat := none
  up_since : Option Nat := none
  rise : Option Nat := none
  fall : Option Nat := none
deriving DecidableEq, Repr

/-! ## Check configuration (src/exacheck/settings/check.py) -/

/-- An immutable check configuration (the fields the core uses; prefixes,
addresses and paths are modelled by their string rendering). -/
structure Check where
  name : String
  prefixes : List String
  nexthop : String
  metric : Option Int := none
  metric_down : Option Int := none
  local_preference : Option Int := none
  neighbors : Option (List String) := none
  communities : Option (List String) := none
  as_path : Option String := none
  path_id : Option Int := none
  interval : Int := 15
  rise : Nat := 3
  fall : Nat := 3
deriving DecidableEq, Repr

/-! ## Announcer (src/exacheck/announcer.py) -/

/-- Split a character list at every colon (the shape test behind the
`^\d{1,10}:\d{1,10}$` and `^\d{1,10}:\d{1,10}:\d{1,10}$` community regexes). -/
def splitColon : List Char → List (List Char)
  | [] => [[]]
  | c :: rest =>
    let r := splitColon rest
    if c = ':' then [] :: r
    else
      match r with
      | [] => [[c]]
      | h :: t => (c :: h) :: t

/-- `\d{1,10}`: between one and ten ASCII digits. -/
def digits1to10 (l : List Char) : Bool :=
  decide (1 ≤ l.length) && decide (l.length ≤ 10) && l.all Char.isDigit

/-- `standard_pattern.match`: the community matches `^\d{1,10}:\d{1,10}$`. -/
def standard_match (s : String) : Bool :=
  match splitColon s.data with
  | [a, b] => digits1to10 a && digits1to10 b
  | _ => false

/-- `large_pattern.match`: the community matches `^\d{1,10}:\d{1,10}:\d{1,10}$`. -/
def large_match (s : String) : Bool :=
  match splitColon s.data with
  | [a, b, c] => digits1to10 a && digits1to10 b && digits1to10 c
  | _ => false

/-- The `standard` bucket built by the classification loop in
`Announcer._generate_communities`. -/
def Announcer.standard_communities (communities : List String) : List String :=
  communities.filter (fun c => standard_match c)

/-- The `large` bucket: communities reaching the second test (not standard)
and matching the large pattern. -/
def Announcer.large_communities (communities : List String) : List String :=
  communities.filter (fun c => !standard_match c && large_match c)

/-- The `extended` bucket: everything that matched neither pattern. -/
def Announcer.extended_communities (communities : List String) : List String :=
  communities.filter (fun c => !standard_match c && !large_match c)

/-- `Announcer._generate_communities`: render the non-empty buckets, in the
order community / large-community / extended-community, space-joined. -/
def Announcer.generate_communities (communities : List String) : String :=
  let standard := Announcer.standard_communities communities
  let large := Announcer.large_communities communities
  let extended := Announcer.extended_communities communities
  let community_string : List String :=
    (if !standard.isEmpty then
      ["community [" ++ " ".intercalate standard ++ "]"] else [])
    ++ (if !large.isEmpty then
      ["large-community [" ++ " ".intercalate large ++ "]"] else [])
    ++ (if !extended.isEmpty then
      ["extended-community [" ++ " ".intercalate extended ++ "]"] else [])
  " ".intercalate community_string

/-- One space-joined element of the route template: literal text, the deferred
`\x7bcommand\x7d` slot, or the deferred `\x7bmetric\x7d` slot. -/
inductive Seg
  | lit (s : String)
  | commandSlot
  | metricSlot
deriving DecidableEq, Repr

/-- The route template of `Announcer.generate_routes` for one prefix: the
clauses appended in source order, with the prefix already substituted. -/
def Announcer.route_template (check : Check) (pfx : String) : List Seg :=
  (if pyTruthyList check.neighbors then
    [Seg.lit (", ".intercalate
      ((check.neighbors.getD []).map (fun n => "neighbor " ++ n)))]
  else [])
  ++ [Seg.commandSlot]
  ++ [Seg.lit ("route " ++ pfx)]
  ++ [Seg.lit ("next-hop " ++ check.nexthop)]
  ++ (if pyTruthyInt check.metric || pyTruthyInt check.metric_down then
    [Seg.metricSlot] else [])
  ++ (if pyTruthyInt check.local_preference then
    [Seg.lit ("local-preference " ++ toString (check.local_preference.getD 0))]
  else [])
  ++ (if pyTruthyList check.communities then
    [Seg.lit (Announcer.generate_communities (check.communities.getD []))]
  else [])
  ++ (if pyTruthyStr check.as_path then
    [Seg.lit ("as-path " ++ check.as_path.getD "")] else [])
  ++ (if pyTruthyInt check.path_id then
    [Seg.lit ("path-information " ++ toString (check.path_id.getD 0))] else [])

/-- `Announcer.generate_routes`: one route template per configured prefix. -/
def Announcer.generate_routes (check : Check) : List (List Seg) :=
  check.prefixes.map (Announcer.route_template check)

/-- `route.format(command=..., metric=med)`: fill the two slots and join with
single spaces; Python interpolates `None` as the literal text "None". -/
def Announcer.format_route (segs : List Seg) (command : String)
    (med : Option String) : String :=
  " ".intercalate (segs.map (fun s =>
    match s with
    | Seg.lit t => t
    | Seg.commandSlot => command
    | Seg.metricSlot =>
      match med with
      | none => "None"
      | some m => m))

/-- The `med` string built at the top of `Announcer.send_command`:
`if metric:` is Python truthiness, so `None` and `0` yield no med clause. -/
def Announcer.med_string (metric : Option Int) : Option String :=
  match metric with
  | none => none
  | some m => if m = 0 then none else some ("med " ++ toString m)

/-- `Announcer.send_command`: format every generated route with the command
and the med string and emit the lines in order. -/
def Announcer.send_command (check : Check) (command : String)
    (metric : Option Int) : List String :=
  (Announcer.generate_routes check).map
    (fun segs => Announcer.format_route segs command (Announcer.med_string metric))

/-! ## Worker state machine (src/exacheck/worker.py) -/

/-- A call made to the `Announcer` by the worker, with the metric passed. -/
inductive AnnouncerCall
  | announce (metric : Option Int)
  | withdraw (metric : Option Int)
deriving DecidableEq, Repr

/-- The initial check state set in `Worker.__init__`:
`CheckState(state="startup", advertised=False)`. -/
def Worker.initState : CheckState :=
  { state := StateTag.startup, advertised := false }

/-- `Worker.announce`: advertise only if the route is not already advertised;
the announcer is called with `metric=self.check.metric`. -/
def Worker.announce (check : Check) (st : CheckState) : List AnnouncerCall :=
  if st.advertised then []
  else [AnnouncerCall.announce check.metric]

/-- `Worker.withdraw`: withdraw only if the route is currently advertised;
the announcer is called with `metric=self.check.metric`. -/
def Worker.withdraw (check : Check) (st : CheckState) : List AnnouncerCall :=
  if !st.advertised then []
  else [AnnouncerCall.withdraw check.metric]

/-- `Worker.success`: handle a successful probe result, producing the new
check state and the announcer calls made (`now` models `datetime.now()`).
The rise test is `state.rise and (state.rise + 1) >= self.check.rise`, with
Python truthiness on the optional counter. -/
def Worker.success (check : Check) (st : CheckState) (result : CheckResult)
    (now : Nat) : CheckState × List AnnouncerCall :=
  if st.advertised then
    ({ state := StateTag.up, advertised := true, last_result := some result,
       up_since := st.up_since }, [])
  else if pyTruthyNat st.rise && decide (st.rise.getD 0 + 1 ≥ check.rise) then
    ({ state := StateTag.up, advertised := true, last_result := some result,
       up_since := some now }, Worker.announce check st)
  else
    let rise := if pyTruthyNat st.rise then st.rise.getD 0 + 1 else 1
    ({ state := StateTag.rising, advertised := false, last_result := some result,
       down_since := st.down_since, rise := some rise }, [])

/-- `Worker.failure`: handle a failed (or disabled) probe result, producing
the new check state and the announcer calls made. The fall test is
`state.fall and (state.fall + 1) >= self.check.fall`. -/
def Worker.failure (check : Check) (st : CheckState) (result : CheckResult)
    (now : Nat) : CheckState × List AnnouncerCall :=
  if result.disabled then
    if st.advertised then
      ({ state := StateTag.disabled, advertised := false,
         last_result := some result, down_since := some now },
       Worker.withdraw check st)
    else
      ({ state := StateTag.disabled, advertised := false,
         last_result := some result, down_since := st.down_since }, [])
  else if !st.advertised then
    ({ state := StateTag.down, advertised := false, last_result := some result,
       down_since := st.up_since }, [])
  else if pyTruthyNat st.fall && decide (st.fall.getD 0 + 1 ≥ check.fall) then
    ({ state := StateTag.down, advertised := false, last_result := some result,
       down_since := some now }, Worker.withdraw check st)
  else
    let fall := if pyTruthyNat st.fall then st.fall.getD 0 + 1 else 1
    ({ state := StateTag.falling, advertised := true, last_result := some result,
       up_since := st.up_since, fall := some fall }, [])

/-- The worker invariant: the route is advertised exactly in the `up` and
`falling` states. -/
def stateInvariant (st : CheckState) : Prop :=
  st.advertised = true ↔ (st.state = StateTag.up ∨ st.state = StateTag.falling)

/-! ## CheckExecutor (src/exacheck/checkexecutor.py) -/

/-- The behaviour of one probe invocation under the armed alarm: it either
returns a result, or an exception is raised during `self.method.check()`
(a probe overrunning the deadline raises `CheckTimeout` there). -/
inductive ProbeBehavior
  | returns (r : CheckResult)
  | raises (e : PyExc)
deriving DecidableEq, Repr

/-- The message of the `CheckTimeout` raised by the alarm handler. -/
def CheckExecutor.timeout_message (timeout : Nat) : String :=
  "The check timed out after " ++ toString timeout ++ " seconds"

/-- `CheckExecutor._run_check`: call the probe, catching
`DNSResolutionError` first and then any other `Exception`. Every `PyExc`
variant models an `Exception` subclass, so every raise is caught here and
the function never propagates an exception. -/
def CheckExecutor.run_check (probe : ProbeBehavior) : Except PyExc CheckResult :=
  match probe with
  | ProbeBehavior.returns r => Except.ok r
  | ProbeBehavior.raises (PyExc.dnsResolutionError msg) =>
    Except.ok
      { success := false,
        message := "Could not resolve hostname into an IP address",
        error := some
          "Hostname could not be resolved to an IP address of the appropriate address family.",
        exception := some (PyExc.dnsResolutionError msg) }
  | ProbeBehavior.raises e =>
    Except.ok
      { success := false,
        message := "Unexpected exception while running health check",
        error := some ("Exception was raised: " ++ e.message),
        exception := some e }

/-- The outcome of `CheckExecutor._execute`: the produced result and whether
`signal.alarm(0)` ran before returning. -/
structure ExecOutcome where
  result : CheckResult
  alarmCancelled : Bool
deriving DecidableEq, Repr

/-- `CheckExecutor._execute` (reached unchanged through
`CheckExecutor.execute`, which only adds logging): arm the alarm, run
`_run_check` under `except CheckTimeout`, then cancel the alarm. An
exception other than `CheckTimeout` escaping `_run_check` would propagate
without reaching `signal.alarm(0)`. -/
def CheckExecutor.execute (timeout : Nat) (probe : ProbeBehavior) :
    Except PyExc ExecOutcome :=
  match CheckExecutor.run_check probe with
  | Except.ok r => Except.ok { result := r, alarmCancelled := true }
  | Except.error (PyExc.checkTimeout msg) =>
    Except.ok { result := { success := false, message := msg },
                alarmCancelled := true }
  | Except.error e => Except.error e

/-! ## Sleeper (src/exacheck/sleeper.py) -/

/-- `Sleeper._calculate` on the elapsed time `finish - self._start`: the
returned pair is the sleep time and whether the iteration-overran warning
was logged. -/
def Sleeper.calculate (interval elapsed : ℚ) : ℚ × Bool :=
  if elapsed > interval then (1, true)
  else
    let remaining := interval - elapsed
    if remaining < 1 then (1, false)
    else (remaining, false)

/-! ## Configuration reload (src/exacheck/exacheck.py, settings/settings.py) -/

/-- `Settings.get_check_name`: the first configured check with the given
name, or `None`. -/
def Settings.get_check_name (checks : List Check) (name : String) : Option Check :=
  checks.find? (fun c => c.name == name)

/-- A worker lifecycle action taken by `ExaCheck._reload_configuration`:
`stop` is `_terminate_worker`, `start` is `_start_worker`, `restart` is
`_restart_worker`. -/
inductive ReloadAction
  | stop (name : String)
  | start (name : String)
  | restart (name : String)
deriving DecidableEq, Repr

/-- The check name an action applies to. -/
def ReloadAction.checkName : ReloadAction → String
  | ReloadAction.stop n => n
  | ReloadAction.start n => n
  | ReloadAction.restart n => n

/-- `ExaCheck._reload_configuration` after a successful reparse: terminate
the workers of checks gone from the new list, then walk the new list
starting workers for new names and restarting workers whose configuration
lookup differs between the two settings objects. -/
def reload_configuration (current new : List Check) : List ReloadAction :=
  (current.filterMap (fun c =>
    match Settings.get_check_name new c.name with
    | none => some (ReloadAction.stop c.name)
    | some _ => none))
  ++ (new.filterMap (fun c =>
    match Settings.get_check_name current c.name with
    | none => some (ReloadAction.start c.name)
    | some _ =>
      if Settings.get_check_name new c.name ≠ Settings.get_check_name current c.name
      then some (ReloadAction.restart c.name)
      else none))

/-! ## Concrete fixtures -/

/-- A successful probe result. -/
def okResult : CheckResult := { success := true, message := "Health check successful" }

/-- A failed (not disabled) probe result. -/
def failResult : CheckResult := { success := false, message := "Health check failed" }

/-- A configured check with `rise = 1` and `fall = 2`. -/
def cfgSvc : Check :=
  { name := "svc1", prefixes := ["192.0.2.0/24"], nexthop := "self",
    rise := 1, fall := 2 }

/-- A check with no metric but a configured down metric. -/
def cfgMetricDown : Check :=
  { name := "svc2", prefixes := ["198.51.100.0/24"], nexthop := "192.0.2.1",
    metric := none, metric_down := some 50, rise := 1, fall := 1 }

/-- A check with a configured metric. -/
def cfgMed : Check :=
  { name := "svc3", prefixes := ["203.0.113.0/24"], nexthop := "self",
    metric := some 10 }

/-- The community list of the RouteRenderer round-trip example. -/
def exampleCommunities : List String :=
  ["65000:100", "65000:100:5", "65000:999000000"]

/-- A state that is currently advertised and up. -/
def stAdvertised : CheckState :=
  { state := StateTag.up, advertised := true, up_since := some 50 }

/-- A falling state still advertising with one failure counted. -/
def stFalling : CheckState :=
  { state := StateTag.falling, advertised := true, up_since := some 50,
    fall := some 1 }

/-- State after the first failure from `stAdvertised` under `cfgSvc`. -/
def c4_state1 : CheckState := (Worker.failure cfgSvc stAdvertised failResult 60).1

/-- State after the second failure (the fall threshold of 2 is reached). -/
def c4_state2 : CheckState := (Worker.failure cfgSvc c4_state1 failResult 70).1

/-- State after a third failure while already down. -/
def c4_state3 : CheckState := (Worker.failure cfgSvc c4_state2 failResult 80).1

/-- A down state carrying a recorded down-since timestamp. -/
def stDownSince : CheckState :=
  { state := StateTag.down, advertised := false, down_since := some 100 }

/-- Reload example check A. -/
def chkA : Check := { name := "A", prefixes := ["10.0.0.0/24"], nexthop := "self" }

/-- Reload example check B. -/
def chkB : Check := { name := "B", prefixes := ["10.0.1.0/24"], nexthop := "self" }

/-- Reload example check C. -/
def chkC : Check := { name := "C", prefixes := ["10.0.2.0/24"], nexthop := "self" }

/-- The old check list of the reload example. -/
def oldChecks : List Check := [chkA, chkB]

/-- The new check list of the reload example (B unchanged, A removed, C added). -/
def newChecks : List Check := [chkB, chkC]

/-! ## Claim theorems -/

/-- C1: with `rise = 1` the very first successful probe from startup does NOT
flip the state to up: the guard `state.rise and ...` is falsy while the rise
counter is absent, so the worker only moves to `rising` with counter 1 and
makes no announcer call; the second consecutive success is what advertises. -/
theorem c1_rise_one_needs_two_successes :
    cfgSvc.rise = 1
    ∧ (Worker.success cfgSvc Worker.initState okResult 0).1.advertised = false
    ∧ (Worker.success cfgSvc Worker.initState okResult 0).1.state = StateTag.rising
    ∧ (Worker.success cfgSvc Worker.initState okResult 0).1.rise = some 1
    ∧ (Worker.success cfgSvc Worker.initState okResult 0).2 = []
    ∧ (Worker.success cfgSvc (Worker.success cfgSvc Worker.initState okResult 0).1
        okResult 1).1.advertised = true
    ∧ (Worker.success cfgSvc (Worker.success cfgSvc Worker.initState okResult 0).1
        okResult 1).2 = [AnnouncerCall.announce cfgSvc.metric] := by
  decide

/-- C2 counterexample: for the example community list, `65000:999000000`
matches the standard pattern (one to ten digits on each side of the colon),
so it lands in the standard bucket and the rendered output contains no
extended-community clause at all. -/
theorem c2_example_counterexample :
    Announcer.generate_communities exampleCommunities
      = "community [65000:100 65000:999000000] large-community [65000:100:5]"
    ∧ ¬ ("extended-community [65000:999000000]".data <:+:
        (Announcer.generate_communities exampleCommunities).data)
    ∧ Announcer.standard_communities exampleCommunities
      = ["65000:100", "65000:999000000"]
    ∧ Announcer.extended_communities exampleCommunities = [] := by
  decide

/-- C2 amended: the classifier buckets each community by shape (standard
`ASN:VALUE` with 1-10 digit fields tested first, then large
`ASN:ASN:VALUE`, everything else extended) and renders the non-empty
buckets in community / large-community / extended-community order; in the
round-trip example `65000:999000000` is standard, so the output is
`community [65000:100 65000:999000000] large-community [65000:100:5]`.
A list hitting all three buckets shows the rendering order. -/
theorem c2_community_classification (cs : List String) (c : String) :
    (c ∈ Announcer.standard_communities cs ↔ c ∈ cs ∧ standard_match c = true)
    ∧ (c ∈ Announcer.large_communities cs ↔
        c ∈ cs ∧ standard_match c = false ∧ large_match c = true)
    ∧ (c ∈ Announcer.extended_communities cs ↔
        c ∈ cs ∧ standard_match c = false ∧ large_match c = false)
    ∧ Announcer.generate_communities exampleCommunities
      = "community [65000:100 65000:999000000] large-community [65000:100:5]"
    ∧ Announcer.generate_communities ["65000:100", "65000:100:5", "no-export"]
      = "community [65000:100] large-community [65000:100:5] extended-community [no-export]" := by
  refine ⟨?_, ?_, ?_, by decide, by decide⟩
  · simp [Announcer.standard_communities, List.mem_filter]
  · simp [Announcer.large_communities, List.mem_filter, and_assoc]
  · simp [Announcer.extended_communities, List.mem_filter, and_assoc]

/-- C3: a probe overrunning its deadline raises `CheckTimeout` inside
`_run_check`, where the broad `except Exception` converts it to the generic
unexpected-exception result; the dedicated `except CheckTimeout` branch of
`_execute` is bypassed, so the returned message is NOT the timeout message
(which survives only inside the `error` field). The alarm is still
cancelled before returning. -/
theorem c3_timeout_yields_generic_message :
    CheckExecutor.execute 5
        (ProbeBehavior.raises (PyExc.checkTimeout (CheckExecutor.timeout_message 5)))
      = Except.ok
        { result :=
            { success := false,
              message := "Unexpected exception while running health check",
              error := some ("Exception was raised: " ++ CheckExecutor.timeout_message 5),
              exception := some (PyExc.checkTimeout (CheckExecutor.timeout_message 5)) },
          alarmCancelled := true }
    ∧ "Unexpected exception while running health check"
        ≠ CheckExecutor.timeout_message 5
    ∧ (CheckExecutor.run_check
        (ProbeBehavior.raises (PyExc.checkTimeout (CheckExecutor.timeout_message 5)))).isOk
        = true := by
  refine ⟨rfl, by decide, rfl⟩

/-- C4 counterexample: under `cfgSvc` (fall = 2), an up service fails three
times; the second failure enters down with `down_since = 70`, and the third
failure - arriving while already down - rebuilds the state with
`down_since = state.up_since = none`, overwriting the recorded value. -/
theorem c4_down_since_overwritten :
    failResult.disabled = false
    ∧ c4_state1.state = StateTag.falling
    ∧ c4_state2.state = StateTag.down
    ∧ c4_state2.advertised = false
    ∧ c4_state2.down_since = some 70
    ∧ c4_state3.state = StateTag.down
    ∧ c4_state3.down_since = none := by
  decide

/-- C4 amended: on every non-disabled failed result while not advertised the
worker rebuilds the state as down and not advertised with
`down_since = state.up_since` unconditionally (that value is `None` in all
non-advertised states the worker constructs), so a repeated failure while
already down overwrites any recorded `down_since`. -/
theorem c4_not_advertised_failure (check : Check) (st : CheckState)
    (result : CheckResult) (now : Nat)
    (hdis : result.disabled = false) (hadv : st.advertised = false) :
    Worker.failure check st result now =
      ({ state := StateTag.down, advertised := false,
         last_result := some result, down_since := st.up_since }, []) := by
  simp [Worker.failure, hdis, hadv]

/-- C4 witness: the amended transition evaluated on a down state carrying
`down_since = 100`; the result keeps none of it. -/
theorem c4_not_advertised_failure_witness :
    failResult.disabled = false ∧ stDownSince.advertised = false
    ∧ Worker.failure cfgSvc stDownSince failResult 7 =
        ({ state := StateTag.down, advertised := false,
           last_result := some failResult, down_since := none }, []) :=
  ⟨by decide, by decide,
    c4_not_advertised_failure cfgSvc stDownSince failResult 7 (by decide) (by decide)⟩

/-- C5 counterexample: for a check with `metric = None` and
`metric_down = 50`, the worker withdraw path passes `metric=check.metric`
(that is, `None`) to the announcer, not the configured down metric, and the
regenerated protocol line renders the literal `None` instead of `med 50`. -/
theorem c5_withdraw_ignores_metric_down :
    cfgMetricDown.metric = none
    ∧ cfgMetricDown.metric_down = some 50
    ∧ (Worker.failure cfgMetricDown stFalling failResult 9).2
        = [AnnouncerCall.withdraw none]
    ∧ Worker.withdraw cfgMetricDown stFalling = [AnnouncerCall.withdraw none]
    ∧ AnnouncerCall.withdraw (none : Option Int) ≠ AnnouncerCall.withdraw (some 50)
    ∧ Announcer.send_command cfgMetricDown "withdraw" none
        = ["withdraw route 198.51.100.0/24 next-hop 192.0.2.1 None"] := by
  decide

/-- C5 amended: every announcer call the worker transition handlers make -
announce on the rise path and withdraw on the failed or disabled path -
passes `check.metric`; `metric_down` never supplies the value (it only
determines, with `metric`, whether the route template has a metric slot). -/
theorem c5_worker_calls_use_check_metric (check : Check) (st : CheckState)
    (result : CheckResult) (now : Nat) :
    ((Worker.failure check st result now).2 = []
      ∨ (Worker.failure check st result now).2 = [AnnouncerCall.withdraw check.metric])
    ∧ ((Worker.success check st result now).2 = []
      ∨ (Worker.success check st result now).2 = [AnnouncerCall.announce check.metric]) := by
  constructor
  · unfold Worker.failure Worker.withdraw
    split_ifs <;> simp
  · unfold Worker.success Worker.announce
    split_ifs <;> simp

/-- C6: once advertised, a further successful result makes no announcer
call; once not advertised, a further failed result makes no announcer call;
and the announce and withdraw methods themselves are no-ops when the route
is already in the target advertised state. -/
theorem c6_announce_withdraw_idempotent (check : Check) (st : CheckState)
    (result : CheckResult) (now : Nat) :
    (st.advertised = true → (Worker.success check st result now).2 = [])
    ∧ (st.advertised = false → (Worker.failure check st result now).2 = [])
    ∧ (st.advertised = true → Worker.announce check st = [])
    ∧ (st.advertised = false → Worker.withdraw check st = []) := by
  refine ⟨fun h => ?_, fun h => ?_, fun h => ?_, fun h => ?_⟩
  · simp [Worker.success, h]
  · unfold Worker.failure
    split
    · simp [h]
    · simp [h]
  · simp [Worker.announce, h]
  · simp [Worker.withdraw, h]

/-- C6 witness: the idempotence facts evaluated on an advertised up state
and on the startup state. -/
theorem c6_announce_withdraw_idempotent_witness :
    (Worker.success cfgSvc stAdvertised okResult 5).2 = []
    ∧ (Worker.failure cfgSvc Worker.initState failResult 5).2 = []
    ∧ Worker.announce cfgSvc stAdvertised = []
    ∧ Worker.withdraw cfgSvc Worker.initState = [] :=
  ⟨(c6_announce_withdraw_idempotent cfgSvc stAdvertised okResult 5).1 rfl,
    (c6_announce_withdraw_idempotent cfgSvc Worker.initState failResult 5).2.1 rfl,
    (c6_announce_withdraw_idempotent cfgSvc stAdvertised failResult 5).2.2.1 rfl,
    (c6_announce_withdraw_idempotent cfgSvc Worker.initState failResult 5).2.2.2 rfl⟩

/-- C7: the computed sleep time is `interval - elapsed` when the elapsed
time fits in the interval with at least one second spare, and exactly one
second otherwise; the overrun warning fires exactly when
`elapsed > interval`. -/
theorem c7_sleep_time (interval elapsed : ℚ) :
    (elapsed ≤ interval → 1 ≤ interval - elapsed →
      Sleeper.calculate interval elapsed = (interval - elapsed, false))
    ∧ (interval < elapsed → Sleeper.calculate interval elapsed = (1, true))
    ∧ (elapsed ≤ interval → interval - elapsed < 1 →
      Sleeper.calculate interval elapsed = (1, false)) := by
  refine ⟨fun h1 h2 => ?_, fun h => ?_, fun h1 h2 => ?_⟩
  · rw [Sleeper.calculate, if_neg (by linarith), if_neg (by linarith)]
  · rw [Sleeper.calculate, if_pos (by linarith)]
  · rw [Sleeper.calculate, if_neg (by linarith), if_pos (by linarith)]

/-- C7 witness: interval 10 with a 3 second iteration sleeps 7 seconds; a
12 second iteration sleeps the 1 second floor and logs the overrun. -/
theorem c7_sleep_time_witness :
    Sleeper.calculate 10 3 = (7, false) ∧ Sleeper.calculate 10 12 = (1, true) := by
  constructor
  · have h := (c7_sleep_time 10 3).1 (by norm_num) (by norm_num)
    rw [h]
    norm_num
  · exact (c7_sleep_time 10 12).2.1 (by norm_num)

/-! ## Reload reconciliation lemmas -/

/-- `get_check_name` misses exactly the names absent from the check list. -/
lemma get_check_name_eq_none_iff (l : List Check) (n : String) :
    Settings.get_check_name l n = none ↔ n ∉ l.map Check.name := by
  simp [Settings.get_check_name, List.find?_eq_none, List.mem_map]

/-- A successful `get_check_name` lookup returns a member with that name. -/
lemma get_check_name_mem (l : List Check) (n : String) (c : Check)
    (h : Settings.get_check_name l n = some c) : c ∈ l ∧ c.name = n := by
  refine ⟨List.mem_of_find?_eq_some h, ?_⟩
  have := List.find?_some h
  simpa using this

/-- With pairwise distinct names, looking up the name of a member returns
that member. -/
lemma get_check_name_eq_some_of (l : List Check) (c : Check)
    (hnd : (l.map Check.name).Nodup) (hc : c ∈ l) :
    Settings.get_check_name l c.name = some c := by
  cases hfind : Settings.get_check_name l c.name with
  | none =>
    rw [get_check_name_eq_none_iff] at hfind
    exact absurd (List.mem_map_of_mem Check.name hc) hfind
  | some o =>
    obtain ⟨ho, hon⟩ := get_check_name_mem l c.name o hfind
    have heq : o = c := List.inj_on_of_nodup_map hnd ho hc hon
    rw [heq]

/-- A stop action is generated exactly for the names that disappear. -/
lemma stop_mem_reload_iff (current new : List Check) (name : String) :
    ReloadAction.stop name ∈ reload_configuration current new ↔
      name ∈ current.map Check.name ∧ name ∉ new.map Check.name := by
  unfold reload_configuration
  rw [List.mem_append, List.mem_filterMap, List.mem_filterMap]
  constructor
  · rintro (⟨c, hc, hf⟩ | ⟨c, hc, hf⟩)
    · rcases hget : Settings.get_check_name new c.name with _ | o
      · rw [hget] at hf
        simp only [Option.some.injEq, ReloadAction.stop.injEq] at hf
        subst hf
        exact ⟨List.mem_map_of_mem Check.name hc,
          (get_check_name_eq_none_iff new c.name).mp hget⟩
      · rw [hget] at hf
        simp at hf
    · rcases hget : Settings.get_check_name current c.name with _ | o
      · rw [hget] at hf
        simp at hf
      · simp only [hget] at hf
        split_ifs at hf <;> simp at hf
  · rintro ⟨h1, h2⟩
    left
    rw [List.mem_map] at h1
    obtain ⟨c, hc, hn⟩ := h1
    refine ⟨c, hc, ?_⟩
    have hnone : Settings.get_check_name new c.name = none := by
      rw [get_check_name_eq_none_iff, hn]
      exact h2
    rw [hnone, hn]

/-- A start action is generated exactly for the names that appear. -/
lemma start_mem_reload_iff (current new : List Check) (name : String) :
    ReloadAction.start name ∈ reload_configuration current new ↔
      name ∈ new.map Check.name ∧ name ∉ current.map Check.name := by
  unfold reload_configuration
  rw [List.mem_append, List.mem_filterMap, List.mem_filterMap]
  constructor
  · rintro (⟨c, hc, hf⟩ | ⟨c, hc, hf⟩)
    · rcases hget : Settings.get_check_name new c.name with _ | o
      · rw [hget] at hf
        simp at hf
      · rw [hget] at hf
        simp at hf
    · rcases hget : Settings.get_check_name current c.name with _ | o
      · rw [hget] at hf
        simp only [Option.some.injEq, ReloadAction.start.injEq] at hf
        subst hf
        exact ⟨List.mem_map_of_mem Check.name hc,
          (get_check_name_eq_none_iff current c.name).mp hget⟩
      · simp only [hget] at hf
        split_ifs at hf <;> simp at hf
  · rintro ⟨h1, h2⟩
    right
    rw [List.mem_map] at h1
    obtain ⟨c, hc, hn⟩ := h1
    refine ⟨c, hc, ?_⟩
    have hnone : Settings.get_check_name current c.name = none := by
      rw [get_check_name_eq_none_iff, hn]
      exact h2
    rw [hnone, hn]

/-- With unique names on both sides, a restart action is generated exactly
for the names present in both lists whose configuration differs. -/
lemma restart_mem_reload_iff (current new : List Check)
    (hcur : (current.map Check.name).Nodup) (hnew : (new.map Check.name).Nodup)
    (name : String) :
    ReloadAction.restart name ∈ reload_configuration current new ↔
      ∃ c ∈ new, ∃ o ∈ current, c.name = name ∧ o.name = name ∧ c ≠ o := by
  unfold reload_configuration
  rw [List.mem_append, List.mem_filterMap, List.mem_filterMap]
  constructor
  · rintro (⟨c, hc, hf⟩ | ⟨c, hc, hf⟩)
    · rcases hget : Settings.get_check_name new c.name with _ | o
      · rw [hget] at hf
        simp at hf
      · rw [hget] at hf
        simp at hf
    · rcases hget : Settings.get_check_name current c.name with _ | o
      · rw [hget] at hf
        simp at hf
      · simp only [hget] at hf
        split_ifs at hf with hcond
        · simp only [Option.some.injEq, ReloadAction.restart.injEq] at hf
          subst hf
          obtain ⟨ho, hon⟩ := get_check_name_mem current c.name o hget
          have hnewc : Settings.get_check_name new c.name = some c :=
            get_check_name_eq_some_of new c hnew hc
          refine ⟨c, hc, o, ho, rfl, hon, ?_⟩
          intro hco
          apply hcond
          rw [hnewc, hco]
  · rintro ⟨c, hc, o, ho, hcn, hon, hco⟩
    right
    refine ⟨c, hc, ?_⟩
    have hgetcur : Settings.get_check_name current c.name = some o := by
      have := get_check_name_eq_some_of current o hcur ho
      rw [hon, ← hcn] at this
      exact this
    have hgetnew : Settings.get_check_name new c.name = some c :=
      get_check_name_eq_some_of new c hnew hc
    have hcond : Settings.get_check_name new c.name ≠ some o := by
      rw [hgetnew]
      simp [hco]
    simp only [hgetcur]
    rw [if_pos hcond, hcn]

/-- C8: the reconciliation of `_reload_configuration` stops exactly the
names gone from the new list, starts exactly the newly present names,
restarts exactly the names present in both lists with a differing
configuration, and touches no check identical in both lists. -/
theorem c8_reload_reconciliation (current new : List Check)
    (hcur : (current.map Check.name).Nodup) (hnew : (new.map Check.name).Nodup)
    (name : String) :
    (ReloadAction.stop name ∈ reload_configuration current new ↔
      name ∈ current.map Check.name ∧ name ∉ new.map Check.name)
    ∧ (ReloadAction.start name ∈ reload_configuration current new ↔
      name ∈ new.map Check.name ∧ name ∉ current.map Check.name)
    ∧ (ReloadAction.restart name ∈ reload_configuration current new ↔
      ∃ c ∈ new, ∃ o ∈ current, c.name = name ∧ o.name = name ∧ c ≠ o)
    ∧ (∀ c, c ∈ current → c ∈ new →
      ∀ a ∈ reload_configuration current new, a.checkName ≠ c.name) := by
  refine ⟨stop_mem_reload_iff current new name,
    start_mem_reload_iff current new name,
    restart_mem_reload_iff current new hcur hnew name, ?_⟩
  intro c hccur hcnew a ha hname
  cases a with
  | stop n =>
    obtain ⟨h1, h2⟩ := (stop_mem_reload_iff current new n).mp ha
    rw [ReloadAction.checkName] at hname
    subst hname
    exact h2 (List.mem_map_of_mem Check.name hcnew)
  | start n =>
    obtain ⟨h1, h2⟩ := (start_mem_reload_iff current new n).mp ha
    rw [ReloadAction.checkName] at hname
    subst hname
    exact h2 (List.mem_map_of_mem Check.name hccur)
  | restart n =>
    obtain ⟨c1, hc1, o, ho, hc1n, hon, hne⟩ :=
      (restart_mem_reload_iff current new hcur hnew n).mp ha
    rw [ReloadAction.checkName] at hname
    subst hname
    have h1 : c1 = c := List.inj_on_of_nodup_map hnew hc1 hcnew (by rw [hc1n])
    have h2 : o = c := List.inj_on_of_nodup_map hcur ho hccur (by rw [hon])
    exact hne (by rw [h1, h2])

/-- C8 witness: for old checks A and B and new checks B and C with B
unchanged, the reconciliation is exactly one stop of A and one start of C
and no restart. -/
theorem c8_reload_reconciliation_witness :
    (oldChecks.map Check.name).Nodup ∧ (newChecks.map Check.name).Nodup
    ∧ ReloadAction.stop "A" ∈ reload_configuration oldChecks newChecks
    ∧ ReloadAction.start "C" ∈ reload_configuration oldChecks newChecks
    ∧ reload_configuration oldChecks newChecks
        = [ReloadAction.stop "A", ReloadAction.start "C"] :=
  ⟨by decide, by decide,
    ((c8_reload_reconciliation oldChecks newChecks (by decide) (by decide) "A").1).mpr
      ⟨by decide, by decide⟩,
    ((c8_reload_reconciliation oldChecks newChecks (by decide) (by decide) "C").2.1).mpr
      ⟨by decide, by decide⟩,
    by decide⟩

/-- C9: every state produced by the success and failure handlers satisfies
the invariant that the route is advertised exactly in the up and falling
states, and the initial worker state is startup with advertised false. -/
theorem c9_advertised_iff_up_or_falling (check : Check) (st : CheckState)
    (result : CheckResult) (now : Nat) :
    stateInvariant (Worker.success check st result now).1
    ∧ stateInvariant (Worker.failure check st result now).1
    ∧ stateInvariant Worker.initState
    ∧ Worker.initState.state = StateTag.startup
    ∧ Worker.initState.advertised = false := by
  refine ⟨?_, ?_, by simp [stateInvariant, Worker.initState], rfl, rfl⟩
  · unfold Worker.success stateInvariant
    split_ifs <;> simp
  · unfold Worker.failure stateInvariant
    split_ifs <;> simp

/-- C10: when the check has a metric slot, every generated route carries the
slot; the emitted line fills it with the literal text None when the metric
argument is None or zero and with a med clause exactly when the metric is a
nonzero integer, and each line then contains a None word where the med
clause belongs. -/
theorem c10_metric_rendering (check : Check) (command : String)
    (metric : Option Int)
    (hslot : (pyTruthyInt check.metric || pyTruthyInt check.metric_down) = true) :
    (∀ segs ∈ Announcer.generate_routes check, Seg.metricSlot ∈ segs)
    ∧ Announcer.send_command check command metric
        = (Announcer.generate_routes check).map (fun segs =>
          " ".intercalate (segs.map (fun s =>
            match s with
            | Seg.lit t => t
            | Seg.commandSlot => command
            | Seg.metricSlot =>
              match metric with
              | none => "None"
              | some n => if n = 0 then "None" else "med " ++ toString n)))
    ∧ ((metric = none ∨ metric = some 0) →
      ∀ segs ∈ Announcer.generate_routes check,
        "None" ∈ segs.map (fun s =>
          match s with
          | Seg.lit t => t
          | Seg.commandSlot => command
          | Seg.metricSlot => "None")) := by
  have hmem : ∀ segs ∈ Announcer.generate_routes check, Seg.metricSlot ∈ segs := by
    intro segs hsegs
    rw [Announcer.generate_routes, List.mem_map] at hsegs
    obtain ⟨pfx, hpfx, rfl⟩ := hsegs
    unfold Announcer.route_template
    rw [hslot]
    simp
  refine ⟨hmem, ?_, ?_⟩
  · unfold Announcer.send_command Announcer.med_string Announcer.format_route
    cases metric with
    | none => rfl
    | some n =>
      by_cases hn : n = 0 <;> simp [hn]
  · intro hm segs hsegs
    rw [List.mem_map]
    exact ⟨Seg.metricSlot, hmem segs hsegs, rfl⟩

/-- C10 witness: for a check with metric 10, sending with metric None
renders the literal None and with metric 10 renders the med clause. -/
theorem c10_metric_rendering_witness :
    (pyTruthyInt cfgMed.metric || pyTruthyInt cfgMed.metric_down) = true
    ∧ Announcer.send_command cfgMed "announce" none
        = ["announce route 203.0.113.0/24 next-hop self None"]
    ∧ Announcer.send_command cfgMed "announce" (some 10)
        = ["announce route 203.0.113.0/24 next-hop self med 10"] := by
  refine ⟨by decide, ?_, ?_⟩
  · rw [(c10_metric_rendering cfgMed "announce" none (by decide)).2.1]
    decide
  · rw [(c10_metric_rendering cfgMed "announce" (some 10) (by decide)).2.1]
    decide

end ExaCheck
